import Mathlib

/-!
Verification of the JobSpy filtering/normalization/export pipeline.

The three scripts `job_scraper.py`, `job_scraper_dynamic.py` and
`job_scraper_exact_match.py` are shallowly embedded here.  Python strings
are modelled as `List Char` (`Str`), Python `None` as `Option.none`,
calendar dates as their integer day ordinal (so `(today - d).days` is
plain integer subtraction), and a Python exception as the `error`
constructor of `Except`.
-/

/-- Python strings are modelled as lists of characters. -/
abbrev Str := List Char

/-- The literal "Unknown" used as a default by the scripts. -/
def unknownS : Str := "Unknown".toList

/-- The literal "Not Provided" used as a default by the scripts. -/
def notProvidedS : Str := "Not Provided".toList

/-- The literal "No description available" used as a default description. -/
def noDescS : Str := "No description available".toList

/-- The key "User Email" added to records by `job_scraper_dynamic.py`. -/
def userEmailKey : Str := "User Email".toList

/-- Python `s.strip()`: drop leading and trailing whitespace. -/
def pyStrip (s : Str) : Str :=
  ((s.dropWhile Char.isWhitespace).reverse.dropWhile Char.isWhitespace).reverse

/-- Python `s.upper()`. -/
def pyUpper (s : Str) : Str := s.map Char.toUpper

/-- Python `s.lower()`. -/
def pyLower (s : Str) : Str := s.map Char.toLower

/-- Python `s.replace(",", "")`: for a one-character pattern this is a filter. -/
def removeCommas (s : Str) : Str := s.filter (fun c => ¬ (c = ','))

/-- Whether `needle` is an initial segment of `hay`. -/
def beginsWith : Str → Str → Bool
  | [], _ => true
  | _ :: _, [] => false
  | a :: as, b :: bs => decide (a = b) && beginsWith as bs

/-- Python `needle in hay` on strings: contiguous substring test. -/
def hasSub (needle : Str) : Str → Bool
  | [] => decide (needle = [])
  | c :: t => beginsWith needle (c :: t) || hasSub needle t

/-- Location of a posting, as used by the scripts (`job.location.city`,
`job.location.state`, `job.location.country`); each component may be absent. -/
structure JobLocation where
  city : Option Str
  state : Option Str
  country : Option Str
deriving DecidableEq

/-- Compensation of a posting (`job.compensation.currency` / `min_amount` /
`max_amount`); the scripts only test the object for presence and read the
three raw fields through. -/
structure Compensation where
  currency : Option Str
  min_amount : Option Int
  max_amount : Option Int
deriving DecidableEq

/-- A job posting as the scripts read it from the external scraper.
`job_type` is the list of job-type names (`job.job_type[0].name` reads the
head); `date_posted` is the day ordinal of the posting date. -/
structure JobPost where
  id : Str
  title : Str
  company_name : Option Str
  company_industry : Option Str
  job_level : Option Str
  job_type : List Str
  is_remote : Bool
  compensation : Option Compensation
  date_posted : Option Int
  location : Option JobLocation
  description : Option Str
  job_url : Str
deriving DecidableEq

/-- A Python runtime failure, as far as the scripts can observe one. -/
inductive PyError where
  | attributeError
  | scrapeError (msg : Str)
deriving DecidableEq

/-- Normalized city of `job_scraper_dynamic.py` line 74:
`job.location.city.strip() if job.location and job.location.city else "Unknown"`. -/
def normCityD (loc : Option JobLocation) : Str :=
  match loc with
  | none => unknownS
  | some l => match l.city with
    | none => unknownS
    | some c => if c = [] then unknownS else pyStrip c

/-- Normalized state of `job_scraper_dynamic.py` line 75:
`job.location.state.strip().upper() if job.location and job.location.state else "Unknown"`. -/
def normStateD (loc : Option JobLocation) : Str :=
  match loc with
  | none => unknownS
  | some l => match l.state with
    | none => unknownS
    | some s => if s = [] then unknownS else pyUpper (pyStrip s)

/-- Normalized country of `job_scraper_dynamic.py` line 76:
`str(job.location.country) if job.location and job.location.country else "Unknown"`. -/
def normCountryD (loc : Option JobLocation) : Str :=
  match loc with
  | none => unknownS
  | some l => match l.country with
    | none => unknownS
    | some c => if c = [] then unknownS else c

/-- Normalized city of `job_scraper.py` line 45 and
`job_scraper_exact_match.py` line 47: `job.location.city.strip() if
job.location.city else "Unknown"`.  When `job.location` is `None`, the
attribute access `job.location.city` raises `AttributeError`. -/
def normCityE (loc : Option JobLocation) : Except PyError Str :=
  match loc with
  | none => Except.error PyError.attributeError
  | some l => Except.ok (match l.city with
    | none => unknownS
    | some c => if c = [] then unknownS else pyStrip c)

/-- Normalized state of `job_scraper.py` line 46 (unsafe on absent location). -/
def normStateE (loc : Option JobLocation) : Except PyError Str :=
  match loc with
  | none => Except.error PyError.attributeError
  | some l => Except.ok (match l.state with
    | none => unknownS
    | some s => if s = [] then unknownS else pyUpper (pyStrip s))

/-- Normalized country of `job_scraper.py` line 47 (unsafe on absent location). -/
def normCountryE (loc : Option JobLocation) : Except PyError Str :=
  match loc with
  | none => Except.error PyError.attributeError
  | some l => Except.ok (match l.country with
    | none => unknownS
    | some c => if c = [] then unknownS else c)

/-- Keyword filter of `job_scraper_dynamic.py` line 82 and
`job_scraper_exact_match.py` line 55:
`any(term.lower() in job.title.lower() for term in search_terms)`. -/
def keywordFilter (searchTerms : List Str) (title : Str) : Bool :=
  searchTerms.any (fun term => hasSub (pyLower term) (pyLower title))

/-- Recency filter of `job_scraper.py` line 53 and
`job_scraper_dynamic.py` line 87:
`job.date_posted and (today - job.date_posted).days <= max_days_old`. -/
def recentFilter (today maxDaysOld : Int) (datePosted : Option Int) : Bool :=
  match datePosted with
  | none => false
  | some d => decide (today - d ≤ maxDaysOld)

/-- Location filter of `job_scraper.py` line 54 and
`job_scraper_dynamic.py` line 89:
`location_state == target_state or job.is_remote`. -/
def locationFilter (locationState targetState : Str) (isRemote : Bool) : Bool :=
  decide (locationState = targetState) || isRemote

/-- Python truthiness defaulting `x if x else d` for an optional string:
both `None` and the empty string fall back to the default. -/
def pyOrDefault (o : Option Str) (d : Str) : Str :=
  match o with
  | none => d
  | some s => if s = [] then d else s

/-- Rendering of an optional Python string value through `str`:
`str(None)` is the text "None". -/
def optStr (o : Option Str) : Str :=
  match o with
  | none => "None".toList
  | some s => s

/-- Rendering of an optional Python number through `str`. -/
def optIntStr (o : Option Int) : Str :=
  match o with
  | none => "None".toList
  | some n => (toString n).toList

/-- Rendering of a Python bool through `str`. -/
def pyBoolStr (b : Bool) : Str :=
  if b then "True".toList else "False".toList

/-- Stand-in for `date.strftime("%Y-%m-%d")`: an injective rendering of the
day ordinal.  No claim inspects the shape of the formatted date, only
whether the "Not Provided" default is taken. -/
def dateStr (d : Int) : Str := (toString d).toList

/-- The flat record built by `scrape_jobs` of `job_scraper_dynamic.py`
lines 91-109 for an accepted posting (field values after the `str`
rendering the exporter applies). -/
structure NormalizedRecord where
  jobID : Str
  jobTitle : Str
  companyName : Str
  industry : Str
  experienceLevel : Str
  jobType : Str
  isRemote : Str
  currency : Str
  salaryMin : Str
  salaryMax : Str
  datePosted : Str
  locationCity : Str
  locationState : Str
  locationCountry : Str
  jobURL : Str
  jobDescription : Str
  jobSource : Str
deriving DecidableEq

/-- Record construction of `job_scraper_dynamic.py` lines 91-109: each
optional field is defaulted exactly as in the dict literal
(`job.company_name if job.company_name else "Unknown"`, compensation
fields falling back to the empty string, the description comma-stripped). -/
def mkRecordD (job : JobPost) (sourceName : Str) : NormalizedRecord where
  jobID := job.id
  jobTitle := job.title
  companyName := pyOrDefault job.company_name unknownS
  industry := pyOrDefault job.company_industry notProvidedS
  experienceLevel := pyOrDefault job.job_level notProvidedS
  jobType := match job.job_type with
    | [] => notProvidedS
    | n :: _ => n
  isRemote := pyBoolStr job.is_remote
  currency := match job.compensation with
    | none => []
    | some c => optStr c.currency
  salaryMin := match job.compensation with
    | none => []
    | some c => optIntStr c.min_amount
  salaryMax := match job.compensation with
    | none => []
    | some c => optIntStr c.max_amount
  datePosted := match job.date_posted with
    | none => notProvidedS
    | some d => dateStr d
  locationCity := normCityD job.location
  locationState := normStateD job.location
  locationCountry := normCountryD job.location
  jobURL := job.job_url
  jobDescription := match job.description with
    | none => noDescS
    | some s => if s = [] then noDescS else removeCommas s
  jobSource := sourceName

/-- The header field names shared by all three scripts. -/
def fieldnames17 : List Str :=
  ["Job ID".toList, "Job Title (Primary)".toList, "Company Name".toList,
   "Industry".toList, "Experience Level".toList, "Job Type".toList,
   "Is Remote".toList, "Currency".toList, "Salary Min".toList,
   "Salary Max".toList, "Date Posted".toList, "Location City".toList,
   "Location State".toList, "Location Country".toList, "Job URL".toList,
   "Job Description".toList, "Job Source".toList]

/-- The record as the Python dict: an association list in insertion order. -/
def recToAssoc (r : NormalizedRecord) : List (Str × Str) :=
  [("Job ID".toList, r.jobID),
   ("Job Title (Primary)".toList, r.jobTitle),
   ("Company Name".toList, r.companyName),
   ("Industry".toList, r.industry),
   ("Experience Level".toList, r.experienceLevel),
   ("Job Type".toList, r.jobType),
   ("Is Remote".toList, r.isRemote),
   ("Currency".toList, r.currency),
   ("Salary Min".toList, r.salaryMin),
   ("Salary Max".toList, r.salaryMax),
   ("Date Posted".toList, r.datePosted),
   ("Location City".toList, r.locationCity),
   ("Location State".toList, r.locationState),
   ("Location Country".toList, r.locationCountry),
   ("Job URL".toList, r.jobURL),
   ("Job Description".toList, r.jobDescription),
   ("Job Source".toList, r.jobSource)]

/-- Processing of a single fetched posting by the loop body of
`scrape_jobs` in `job_scraper_dynamic.py` lines 73-113: keyword filter,
then recency filter, then location filter; an accepted posting yields its
normalized record (tagged with the user email when one is configured). -/
def processJobD (searchTerms : List Str) (today maxDaysOld : Int)
    (targetState userEmail : Str) (sourceName : Str) (job : JobPost) :
    Option (List (Str × Str)) :=
  if keywordFilter searchTerms job.title then
    if recentFilter today maxDaysOld job.date_posted then
      if locationFilter (normStateD job.location) targetState job.is_remote then
        some (recToAssoc (mkRecordD job sourceName) ++
          (if userEmail = [] then [] else [(userEmailKey, userEmail)]))
      else none
    else none
  else none

/-- The (term, source) iteration order of `scrape_jobs`: search terms in
the supplied order, sources in declared order within each term. -/
def termSourcePairs (searchTerms sourceNames : List Str) : List (Str × Str) :=
  searchTerms.flatMap (fun t => sourceNames.map (fun s => (t, s)))

/-- The per-pair loop of `scrape_jobs` in `job_scraper_dynamic.py`
lines 64-113.  `scraper.scrape(search_criteria)` at line 70 is called with
no surrounding try/except, so a failure propagates out of the whole
function: the `error` constructor short-circuits the iteration. -/
def scrapePairsD (scrape : Str → Str → Except PyError (List JobPost))
    (searchTerms : List Str) (today maxDaysOld : Int)
    (targetState userEmail : Str) :
    List (Str × Str) → Except PyError (List (List (Str × Str)))
  | [] => Except.ok []
  | (t, s) :: rest =>
    match scrape t s with
    | Except.error e => Except.error e
    | Except.ok jobs =>
      match scrapePairsD scrape searchTerms today maxDaysOld targetState userEmail rest with
      | Except.error e => Except.error e
      | Except.ok more =>
        Except.ok (jobs.filterMap
          (processJobD searchTerms today maxDaysOld targetState userEmail s) ++ more)

/-- `scrape_jobs` of `job_scraper_dynamic.py`: iterate every search term
over every source and accumulate the accepted records; a scrape failure
anywhere aborts the run. -/
def scrape_jobs_dynamic (scrape : Str → Str → Except PyError (List JobPost))
    (searchTerms sourceNames : List Str) (today maxDaysOld : Int)
    (targetState userEmail : Str) : Except PyError (List (List (Str × Str))) :=
  scrapePairsD scrape searchTerms today maxDaysOld targetState userEmail
    (termSourcePairs searchTerms sourceNames)

/-- Modelled from the spec: the error handling of section 4.1 ("a failure
raised by the external scraper for one (term, source) pair must not abort
the run; it is caught, logged, and that pair's contribution is treated as
an empty result set, and iteration continues with the next pair") — absent
from all three scripts, which call `scraper.scrape` with no try/except.
This catching variant exists only to be compared with the code. -/
def scrapePairsCaught (scrape : Str → Str → Except PyError (List JobPost))
    (searchTerms : List Str) (today maxDaysOld : Int)
    (targetState userEmail : Str) :
    List (Str × Str) → List (List (Str × Str))
  | [] => []
  | (t, s) :: rest =>
    (match scrape t s with
     | Except.error _ => []
     | Except.ok jobs =>
       jobs.filterMap (processJobD searchTerms today maxDaysOld targetState userEmail s)) ++
    scrapePairsCaught scrape searchTerms today maxDaysOld targetState userEmail rest

/-- Modelled from the spec: `scrape_jobs` as section 4.1 describes it,
with per-pair failures isolated. -/
def scrape_jobs_caught (scrape : Str → Str → Except PyError (List JobPost))
    (searchTerms sourceNames : List Str) (today maxDaysOld : Int)
    (targetState userEmail : Str) : List (List (Str × Str)) :=
  scrapePairsCaught scrape searchTerms today maxDaysOld targetState userEmail
    (termSourcePairs searchTerms sourceNames)

/-- Field sanitization of `save_jobs_to_csv` in `job_scraper_dynamic.py`
lines 161-164: `value = str(job.get(field, "")).strip()`, then blank values
become "Not Provided", then commas are removed — in that order. -/
def sanitizeField (v : Str) : Str :=
  let s := pyStrip v
  let s := if s = [] then notProvidedS else s
  removeCommas s

/-- The row a record contributes in the flattened export: one sanitized
value per declared field name, in header order (`job.get(field, "")`). -/
def flatRow (fieldnames : List Str) (job : List (Str × Str)) : List Str :=
  fieldnames.map (fun f => sanitizeField ((job.lookup f).getD []))

/-- Header of the flattened export (`job_scraper_dynamic.py` lines 166-168):
"User Email" is prepended when any record carries it. -/
def effFieldnames (jobs : List (List (Str × Str))) : List Str :=
  if jobs.any (fun j => (j.lookup userEmailKey).isSome) then
    userEmailKey :: fieldnames17
  else fieldnames17

/-- The single-line output of `save_jobs_to_csv` in `job_scraper_dynamic.py`
lines 170-184: fields joined by "|~|", the header and the records joined
by ",". -/
def renderFlat (jobs : List (List (Str × Str))) : Str :=
  let fns := effFieldnames jobs
  List.intercalate (",".toList)
    (List.intercalate ("|~|".toList) fns ::
      jobs.map (fun j => List.intercalate ("|~|".toList) (flatRow fns j)))

/-- `save_jobs_to_csv` of `job_scraper_dynamic.py` as a transformer of the
target file's state (`none` = no file): an empty record list leaves the
file untouched; otherwise any existing file is removed and the rendered
output written. -/
def save_jobs_to_csv_dynamic (jobs : List (List (Str × Str)))
    (file : Option Str) : Option Str :=
  if jobs = [] then file else some (renderFlat jobs)

/-- Whether the csv module must quote a field (QUOTE_MINIMAL with a comma
delimiter and double-quote quotechar). -/
def csvNeedsQuote (v : Str) : Bool :=
  v.any (fun c => c = ',' || c = '"' || c = '\n' || c = '\r')

/-- Quoting of one csv field: wrap in double quotes, doubling inner ones,
only when needed. -/
def csvQuote (v : Str) : Str :=
  if csvNeedsQuote v then
    '"' :: (v.flatMap (fun c => if c = '"' then ['"', '"'] else [c])) ++ ['"']
  else v

/-- One line written by `csv.writer`: quoted fields joined by commas and
terminated by CRLF. -/
def csvRow (cells : List Str) : Str :=
  List.intercalate [','] (cells.map csvQuote) ++ ['\r', '\n']

/-- The field values `csv.DictWriter` extracts from one record dict:
`rowdict.get(key, restval)` per field name, with the default
`restval=""` — a missing key becomes an empty cell. -/
def csvCells (fieldnames : List Str) (job : List (Str × Str)) : List Str :=
  fieldnames.map (fun f => (job.lookup f).getD [])

/-- The file content produced by `save_jobs_to_csv` of `job_scraper.py`
lines 99-102: a header row, then one row per record via `DictWriter`. -/
def renderCsv (jobs : List (List (Str × Str))) : Str :=
  csvRow fieldnames17 ++
    (jobs.map (fun j => csvRow (csvCells fieldnames17 j))).flatten

/-- `save_jobs_to_csv` of `job_scraper.py` as a transformer of the target
file's state: an empty record list leaves the file untouched; otherwise
`open(filename, mode="w")` truncates and the full content is rewritten. -/
def save_jobs_to_csv_v1 (jobs : List (List (Str × Str)))
    (file : Option Str) : Option Str :=
  if jobs = [] then file else some (renderCsv jobs)

/-- A sample accepted posting: titled "CRM Manager", located in New York
(state given lowercase, normalized to "NY"), not remote, posted on day 100,
with no optional data. -/
def jobCRM : JobPost where
  id := "1".toList
  title := "CRM Manager".toList
  company_name := some "Acme".toList
  company_industry := none
  job_level := none
  job_type := []
  is_remote := false
  compensation := none
  date_posted := some 100
  location := some { city := some "New York".toList, state := some "ny".toList,
                     country := some "USA".toList }
  description := none
  job_url := "url1".toList

/-- A sample posting titled "Chef", otherwise identical to `jobCRM`. -/
def jobChef : JobPost where
  id := "2".toList
  title := "Chef".toList
  company_name := some "Bistro".toList
  company_industry := none
  job_level := none
  job_type := []
  is_remote := false
  compensation := none
  date_posted := some 100
  location := some { city := some "New York".toList, state := some "ny".toList,
                     country := some "USA".toList }
  description := none
  job_url := "url2".toList

/-- A sample remote posting located in California. -/
def jobRemoteCA : JobPost where
  id := "3".toList
  title := "CRM Manager".toList
  company_name := some "Acme".toList
  company_industry := none
  job_level := none
  job_type := []
  is_remote := true
  compensation := none
  date_posted := some 100
  location := some { city := some "LA".toList, state := some "CA".toList,
                     country := some "USA".toList }
  description := none
  job_url := "url3".toList

/-- A scraper whose call fails for the source "google" and succeeds with
one acceptable posting for every other source. -/
def failingScrape (_t s : Str) : Except PyError (List JobPost) :=
  if s = "google".toList then Except.error (PyError.scrapeError "boom".toList)
  else Except.ok [jobCRM]

/-- A scraper that returns the spec's two-posting scenario for every pair. -/
def scenarioScrape (_t _s : Str) : Except PyError (List JobPost) :=
  Except.ok [jobCRM, jobChef]

/-- A posting with every optional field absent. -/
def jobAllAbsent : JobPost where
  id := "9".toList
  title := "CRM Manager".toList
  company_name := none
  company_industry := none
  job_level := none
  job_type := []
  is_remote := false
  compensation := none
  date_posted := none
  location := none
  description := none
  job_url := "url9".toList

/-- Characterization of `beginsWith`: it decides the prefix relation. -/
theorem beginsWith_iff (n : Str) : ∀ h : Str,
    beginsWith n h = true ↔ ∃ post, h = n ++ post := by
  induction n with
  | nil =>
    intro h
    simp [beginsWith]
  | cons a as ih =>
    intro h
    cases h with
    | nil => simp [beginsWith]
    | cons b bs =>
      simp only [beginsWith, Bool.and_eq_true, decide_eq_true_eq, ih bs,
        List.cons_append, List.cons.injEq]
      constructor
      · rintro ⟨rfl, post, rfl⟩
        exact ⟨post, rfl, rfl⟩
      · rintro ⟨post, rfl, rfl⟩
        exact ⟨rfl, post, rfl⟩

/-- Characterization of `hasSub`: it decides the contiguous-substring
relation, exactly Python's `needle in hay` on strings. -/
theorem hasSub_iff (n : Str) : ∀ h : Str,
    hasSub n h = true ↔ ∃ pre post, h = pre ++ n ++ post := by
  intro h
  induction h with
  | nil =>
    simp only [hasSub, decide_eq_true_eq]
    constructor
    · rintro rfl
      exact ⟨[], [], rfl⟩
    · rintro ⟨pre, post, hp⟩
      rcases List.append_eq_nil.mp hp.symm with ⟨h1, -⟩
      rcases List.append_eq_nil.mp h1 with ⟨-, rfl⟩
      rfl
  | cons c t ih =>
    simp only [hasSub, Bool.or_eq_true, beginsWith_iff n (c :: t), ih]
    constructor
    · rintro (⟨post, hp⟩ | ⟨pre, post, hp⟩)
      · exact ⟨[], post, by simpa using hp⟩
      · exact ⟨c :: pre, post, by simp [hp]⟩
    · rintro ⟨pre, post, hp⟩
      cases pre with
      | nil =>
        left
        exact ⟨post, by simpa using hp⟩
      | cons x xs =>
        right
        simp only [List.cons_append, List.cons.injEq] at hp
        exact ⟨xs, post, hp.2⟩

/-- C3: the recency filter accepts a posting if and only if its posting
date is present and `(today - posting_date).days <= max_days_old`; in
particular a posting with an absent posting date is rejected. -/
theorem C3_recency_filter_iff (today maxDaysOld : Int) (datePosted : Option Int) :
    (recentFilter today maxDaysOld datePosted = true ↔
      ∃ d, datePosted = some d ∧ today - d ≤ maxDaysOld) ∧
    recentFilter today maxDaysOld none = false := by
  refine ⟨?_, rfl⟩
  cases datePosted with
  | none => simp [recentFilter]
  | some d => simp [recentFilter]

/-- Witness for C3 at concrete inputs: a posting dated one day before a
two-day window passes, obtained from the filter characterization. -/
theorem C3_recency_filter_iff_witness : recentFilter 100 2 (some 99) = true :=
  (C3_recency_filter_iff 100 2 (some 99)).1.mpr ⟨99, rfl, by norm_num⟩

/-- C4: the location filter accepts a posting if and only if its
normalized state equals the configured target region or its remote flag is
true; in particular a remote posting is accepted regardless of region. -/
theorem C4_location_filter_iff (job : JobPost) (targetState : Str) :
    (locationFilter (normStateD job.location) targetState job.is_remote = true ↔
      (normStateD job.location = targetState ∨ job.is_remote = true)) ∧
    (job.is_remote = true →
      locationFilter (normStateD job.location) targetState job.is_remote = true) := by
  constructor
  · simp [locationFilter]
  · intro h
    simp [locationFilter, h]

/-- Witness for C4 at a concrete input: the remote California posting is
accepted against target region "NY". -/
theorem C4_location_filter_iff_witness :
    locationFilter (normStateD jobRemoteCA.location) ("NY".toList)
      jobRemoteCA.is_remote = true :=
  (C4_location_filter_iff jobRemoteCA ("NY".toList)).2 rfl

/-- C9: the recency filter imposes no lower bound on the day difference: a
posting dated in the future is accepted for any non-negative window. -/
theorem C9_future_date_accepted (today maxDaysOld d : Int)
    (hfut : today < d) (hmax : 0 ≤ maxDaysOld) :
    recentFilter today maxDaysOld (some d) = true := by
  simp only [recentFilter, decide_eq_true_eq]
  omega

/-- Witness for C9 at concrete inputs: a posting dated one day in the
future passes a zero-day window. -/
theorem C9_future_date_accepted_witness : recentFilter 100 0 (some 101) = true :=
  C9_future_date_accepted 100 0 101 (by norm_num) (by norm_num)

/-- C10 counterexample: in `job_scraper.py` and `job_scraper_exact_match.py`
the location normalization of a posting with an absent location raises
`AttributeError` instead of evaluating to "Unknown". -/
theorem C10_absent_location_error_counterexample :
    normCityE none = Except.error PyError.attributeError ∧
    normStateE none = Except.error PyError.attributeError ∧
    normCountryE none = Except.error PyError.attributeError ∧
    normCityE none ≠ Except.ok unknownS :=
  ⟨rfl, rfl, rfl, fun h => nomatch h⟩

/-- C10 (amended): only in `job_scraper_dynamic.py` is the location
normalization total over postings with an absent location, where the
normalized city, state and country all evaluate to "Unknown". -/
theorem C10_dynamic_normalization_total :
    normCityD none = unknownS ∧ normStateD none = unknownS ∧
    normCountryD none = unknownS :=
  ⟨rfl, rfl, rfl⟩

/-- C8 counterexample: for an accepted posting with absent compensation
(`jobCRM`), the record's Currency, Salary Min and Salary Max are the empty
string, not a placeholder. -/
theorem C8_compensation_empty_counterexample :
    (mkRecordD jobCRM ("google".toList)).currency = [] ∧
    (mkRecordD jobCRM ("google".toList)).salaryMin = [] ∧
    (mkRecordD jobCRM ("google".toList)).salaryMax = [] ∧
    ([] : Str) ≠ unknownS ∧ ([] : Str) ≠ notProvidedS := by
  refine ⟨rfl, rfl, rfl, ?_, ?_⟩ <;> decide

/-- C8 (amended): the record built for an accepted posting defaults absent
company name to "Unknown", absent industry, experience level, job type and
posting date to "Not Provided", absent description to "No description
available", absent location parts to "Unknown" — but the three
compensation fields default to the empty string when compensation is
absent. -/
theorem C8_record_defaults (job : JobPost) (src : Str) :
    (job.company_name = none → (mkRecordD job src).companyName = unknownS) ∧
    (job.company_industry = none → (mkRecordD job src).industry = notProvidedS) ∧
    (job.job_level = none → (mkRecordD job src).experienceLevel = notProvidedS) ∧
    (job.job_type = [] → (mkRecordD job src).jobType = notProvidedS) ∧
    (job.date_posted = none → (mkRecordD job src).datePosted = notProvidedS) ∧
    (job.description = none → (mkRecordD job src).jobDescription = noDescS) ∧
    (job.location = none →
      (mkRecordD job src).locationCity = unknownS ∧
      (mkRecordD job src).locationState = unknownS ∧
      (mkRecordD job src).locationCountry = unknownS) ∧
    (job.compensation = none →
      (mkRecordD job src).currency = [] ∧
      (mkRecordD job src).salaryMin = [] ∧
      (mkRecordD job src).salaryMax = []) := by
  refine ⟨?_, ?_, ?_, ?_, ?_, ?_, ?_, ?_⟩ <;> intro h <;>
    simp [mkRecordD, pyOrDefault, normCityD, normStateD, normCountryD, h]

/-- Witness for C8 at a concrete input: a posting with every optional
field absent gets the stated defaults. -/
theorem C8_record_defaults_witness :
    (mkRecordD jobAllAbsent ("google".toList)).companyName = unknownS ∧
    (mkRecordD jobAllAbsent ("google".toList)).industry = notProvidedS ∧
    (mkRecordD jobAllAbsent ("google".toList)).experienceLevel = notProvidedS ∧
    (mkRecordD jobAllAbsent ("google".toList)).jobType = notProvidedS ∧
    (mkRecordD jobAllAbsent ("google".toList)).datePosted = notProvidedS ∧
    (mkRecordD jobAllAbsent ("google".toList)).jobDescription = noDescS ∧
    (mkRecordD jobAllAbsent ("google".toList)).locationCity = unknownS ∧
    (mkRecordD jobAllAbsent ("google".toList)).currency = [] :=
  have h := C8_record_defaults jobAllAbsent ("google".toList)
  ⟨h.1 rfl, h.2.1 rfl, h.2.2.1 rfl, h.2.2.2.1 rfl, h.2.2.2.2.1 rfl,
   h.2.2.2.2.2.1 rfl, (h.2.2.2.2.2.2.1 rfl).1, (h.2.2.2.2.2.2.2 rfl).1⟩

/-- Removing commas from the placeholder leaves it unchanged. -/
theorem removeCommas_notProvided : removeCommas notProvidedS = notProvidedS := by
  decide

/-- C2 counterexample: the export-time field sanitization of
`save_jobs_to_csv` in `job_scraper_dynamic.py` maps the value "," to the
empty string, not to "Not Provided", so a record carrying "," in its first
field contributes an empty field to the output. -/
theorem C2_comma_only_value_counterexample :
    sanitizeField (",".toList) = [] ∧ ([] : Str) ≠ notProvidedS ∧
    (flatRow fieldnames17 [("Job ID".toList, ",".toList)]).head? = some [] := by
  refine ⟨?_, ?_, ?_⟩ <;> decide

/-- C2 (amended): the sanitization strips whitespace, substitutes
"Not Provided" for values that are blank after that, and only then removes
commas; hence the output field never contains a comma and a blank value is
rendered as the placeholder, but a value consisting solely of commas (non
blank before comma removal) is rendered as an empty field. -/
theorem C2_sanitize_order (v : Str) :
    (∀ c ∈ sanitizeField v, c ≠ ',') ∧
    (pyStrip v = [] → sanitizeField v = notProvidedS) ∧
    (sanitizeField v = [] ↔ (pyStrip v ≠ [] ∧ ∀ c ∈ pyStrip v, c = ',')) := by
  refine ⟨?_, ?_, ?_⟩
  · intro c hc
    simp only [sanitizeField, removeCommas, List.mem_filter, decide_eq_true_eq] at hc
    exact hc.2
  · intro h
    simp [sanitizeField, h, removeCommas_notProvided]
  · by_cases hs : pyStrip v = []
    · simp [sanitizeField, hs, removeCommas_notProvided,
        show notProvidedS ≠ [] from by decide]
    · simp [sanitizeField, hs, removeCommas, List.filter_eq_nil_iff]

/-- Witness for C2 at a concrete input: a purely whitespace value is
rendered as the placeholder. -/
theorem C2_sanitize_order_witness : sanitizeField ("  ".toList) = notProvidedS :=
  (C2_sanitize_order ("  ".toList)).2.1 (by decide)

/-- C6: both exporters are idempotent with respect to the file content:
for a non-empty record sequence the written content is a pure function of
the records (any existing file is replaced, never appended to), so a
second run to the same path yields byte-identical output. -/
theorem C6_export_idempotent (jobs : List (List (Str × Str)))
    (file file2 : Option Str) (h : jobs ≠ []) :
    save_jobs_to_csv_dynamic jobs (save_jobs_to_csv_dynamic jobs file) =
      save_jobs_to_csv_dynamic jobs file ∧
    save_jobs_to_csv_dynamic jobs file = save_jobs_to_csv_dynamic jobs file2 ∧
    save_jobs_to_csv_dynamic jobs file = some (renderFlat jobs) ∧
    save_jobs_to_csv_v1 jobs (save_jobs_to_csv_v1 jobs file) =
      save_jobs_to_csv_v1 jobs file ∧
    save_jobs_to_csv_v1 jobs file = some (renderCsv jobs) := by
  simp [save_jobs_to_csv_dynamic, save_jobs_to_csv_v1, h]

/-- Witness for C6 at a concrete input: a one-record export over an
already-existing file. -/
theorem C6_export_idempotent_witness :
    save_jobs_to_csv_dynamic [[("Job ID".toList, "1".toList)]]
        (save_jobs_to_csv_dynamic [[("Job ID".toList, "1".toList)]] (some "old".toList)) =
      save_jobs_to_csv_dynamic [[("Job ID".toList, "1".toList)]] (some "old".toList) :=
  (C6_export_idempotent [[("Job ID".toList, "1".toList)]]
    (some "old".toList) none (by decide)).1

/-- C7 counterexample: `save_jobs_to_csv` of `job_scraper.py` uses
`csv.DictWriter` with the default `restval=""`, so the cell of a record
missing the "Industry" key is the empty string, not "Not Provided" — while
the flattened exporter of `job_scraper_dynamic.py` would render the
placeholder at the same position. -/
theorem C7_csv_missing_value_counterexample :
    fieldnames17[3]? = some ("Industry".toList) ∧
    (csvCells fieldnames17 [("Job ID".toList, "1".toList)])[3]? = some [] ∧
    ([] : Str) ≠ notProvidedS ∧
    (flatRow fieldnames17 [("Job ID".toList, "1".toList)])[3]? = some notProvidedS := by
  refine ⟨?_, ?_, ?_, ?_⟩ <;> decide

/-- C7 (amended): in both exporters every emitted record has exactly
`len(fieldnames)` fields in exactly the header order; in the flattened
exporter a missing field value is rendered as "Not Provided", whereas the
standard csv exporter renders it as an empty cell. -/
theorem C7_export_row_invariants (fns : List Str) (job : List (Str × Str)) :
    (flatRow fns job).length = fns.length ∧
    (csvCells fns job).length = fns.length ∧
    (∀ i : Nat, (flatRow fns job)[i]? =
      (fns[i]?).map (fun f => sanitizeField ((job.lookup f).getD []))) ∧
    (∀ (i : Nat) (f : Str), fns[i]? = some f → job.lookup f = none →
      (flatRow fns job)[i]? = some notProvidedS) ∧
    (∀ (i : Nat) (f : Str), fns[i]? = some f → job.lookup f = none →
      (csvCells fns job)[i]? = some []) := by
  refine ⟨List.length_map fns _, List.length_map fns _, ?_, ?_, ?_⟩
  · intro i
    simp [flatRow, List.getElem?_map]
  · intro i f hf hl
    simp [flatRow, List.getElem?_map, hf, hl]
    decide
  · intro i f hf hl
    simp [csvCells, List.getElem?_map, hf, hl]

/-- Witness for C7 at a concrete input: the 17-field header with a record
holding only its "Job ID". -/
theorem C7_export_row_invariants_witness :
    (flatRow fieldnames17 [("Job ID".toList, "1".toList)]).length =
      fieldnames17.length ∧
    (flatRow fieldnames17 [("Job ID".toList, "1".toList)])[4]? =
      some notProvidedS :=
  have h := C7_export_row_invariants fieldnames17 [("Job ID".toList, "1".toList)]
  ⟨h.1, h.2.2.2.1 4 ("Experience Level".toList) (by decide) (by decide)⟩

/-- C5: the keyword filter passes a posting exactly when its title
contains at least one configured search term as a case-insensitive
contiguous substring; on the spec's two-posting scenario ("CRM Manager"
and "Chef" against search terms ["CRM Manager"], target "NY", dated today)
the full pipeline produces exactly the one "CRM Manager" record. -/
theorem C5_keyword_filter :
    (∀ (searchTerms : List Str) (title : Str),
      keywordFilter searchTerms title = true ↔
        ∃ term ∈ searchTerms, ∃ pre post,
          pyLower title = pre ++ pyLower term ++ post) ∧
    keywordFilter [("CRM Manager".toList)] ("Chef".toList) = false ∧
    keywordFilter [("CRM Manager".toList)] ("CRM Manager".toList) = true ∧
    scrape_jobs_dynamic scenarioScrape [("CRM Manager".toList)]
        [("google".toList)] 100 2 ("NY".toList) [] =
      Except.ok [recToAssoc (mkRecordD jobCRM ("google".toList))] := by
  refine ⟨?_, by decide, by decide, rfl⟩
  intro searchTerms title
  simp [keywordFilter, List.any_eq_true, hasSub_iff]

/-- Witness for C5 at a concrete input: "CRM Manager" occurs inside a
longer title up to case, so the filter passes, obtained from the
characterization. -/
theorem C5_keyword_filter_witness :
    keywordFilter [("CRM Manager".toList)]
      ("Senior CRM Manager of Ops".toList) = true :=
  (C5_keyword_filter.1 [("CRM Manager".toList)]
      ("Senior CRM Manager of Ops".toList)).mpr
    ⟨"CRM Manager".toList, by decide,
     "senior ".toList, " of ops".toList, by decide⟩

/-- A scrape failure at any pair of the iteration makes the per-pair loop
of `job_scraper_dynamic.py` return that failure: nothing catches it. -/
theorem scrapePairsD_error_of_mem
    (scrape : Str → Str → Except PyError (List JobPost))
    (searchTerms : List Str) (today maxDaysOld : Int)
    (targetState userEmail : Str) :
    ∀ pairs : List (Str × Str),
      (∃ p ∈ pairs, ∃ e, scrape p.1 p.2 = Except.error e) →
      ∃ e, scrapePairsD scrape searchTerms today maxDaysOld targetState
        userEmail pairs = Except.error e := by
  intro pairs
  induction pairs with
  | nil =>
    rintro ⟨p, hp, -⟩
    cases hp
  | cons q rest ih =>
    rintro ⟨p, hp, e, he⟩
    obtain ⟨t, s⟩ := q
    rcases List.mem_cons.mp hp with rfl | hmem
    · simp only at he
      exact ⟨e, by simp [scrapePairsD, he]⟩
    · rcases ih ⟨p, hmem, e, he⟩ with ⟨e2, he2⟩
      cases hcall : scrape t s with
      | error e3 => exact ⟨e3, by simp [scrapePairsD, hcall]⟩
      | ok jobs => exact ⟨e2, by simp [scrapePairsD, hcall, he2]⟩

/-- C1 (amended): a failure raised by the external scraper for any
(term, source) pair of the iteration is not caught: it propagates and the
whole `scrape_jobs` run returns that failure instead of the records
accepted for the other pairs. -/
theorem C1_scrape_failure_aborts
    (scrape : Str → Str → Except PyError (List JobPost))
    (searchTerms sourceNames : List Str) (today maxDaysOld : Int)
    (targetState userEmail : Str)
    (h : ∃ t ∈ searchTerms, ∃ s ∈ sourceNames, ∃ e, scrape t s = Except.error e) :
    ∃ e, scrape_jobs_dynamic scrape searchTerms sourceNames today maxDaysOld
      targetState userEmail = Except.error e := by
  rcases h with ⟨t, ht, s, hs, e, he⟩
  have hmem : (t, s) ∈ termSourcePairs searchTerms sourceNames :=
    List.mem_flatMap.mpr ⟨t, ht, List.mem_map.mpr ⟨s, hs, rfl⟩⟩
  exact scrapePairsD_error_of_mem scrape searchTerms today maxDaysOld
    targetState userEmail (termSourcePairs searchTerms sourceNames)
    ⟨(t, s), hmem, e, he⟩

/-- Witness for C1 at a concrete input: a scraper failing on the source
"google" makes the whole run return a failure. -/
theorem C1_scrape_failure_aborts_witness :
    ∃ e, scrape_jobs_dynamic failingScrape [("CRM Manager".toList)]
      [("google".toList), ("linkedin".toList)] 100 2 ("NY".toList) [] =
        Except.error e :=
  C1_scrape_failure_aborts failingScrape [("CRM Manager".toList)]
    [("google".toList), ("linkedin".toList)] 100 2 ("NY".toList) []
    ⟨"CRM Manager".toList, by decide, "google".toList, by decide,
     PyError.scrapeError ("boom".toList), rfl⟩

/-- C1 counterexample: a run where the pair ("CRM Manager", "google")
fails while ("CRM Manager", "linkedin") returns an acceptable posting.
The claim demands the run continue and return the linkedin record; the
code returns the propagated failure and discards it. -/
theorem C1_uncaught_failure_counterexample :
    failingScrape ("CRM Manager".toList) ("google".toList) =
      Except.error (PyError.scrapeError ("boom".toList)) ∧
    scrape_jobs_dynamic failingScrape [("CRM Manager".toList)]
        [("google".toList), ("linkedin".toList)] 100 2 ("NY".toList) [] =
      Except.error (PyError.scrapeError ("boom".toList)) ∧
    scrape_jobs_caught failingScrape [("CRM Manager".toList)]
        [("google".toList), ("linkedin".toList)] 100 2 ("NY".toList) [] =
      [recToAssoc (mkRecordD jobCRM ("linkedin".toList))] ∧
    scrape_jobs_dynamic failingScrape [("CRM Manager".toList)]
        [("google".toList), ("linkedin".toList)] 100 2 ("NY".toList) [] ≠
      Except.ok (scrape_jobs_caught failingScrape [("CRM Manager".toList)]
        [("google".toList), ("linkedin".toList)] 100 2 ("NY".toList) []) :=
  ⟨rfl, rfl, rfl, fun h => nomatch h⟩
